import Mathlib

/-!
# gvfs: socket output stream, local VFS name parsing, AFC volume monitor

A shallow embedding of

* `gio/gsocketoutputstream.c` (blocking and reactor-driven write and close),
* `gio/glocalvfs.c` (`g_local_vfs_parse_name`),
* `monitor/afc/afcvolumemonitor.c` (device add and remove events),

followed by the properties established about them.

System calls are modelled by their outcomes: every function that performs
system calls receives the list of outcomes the kernel will hand back, in order,
and returns the list of system calls it performed.  A function whose loop is
still running when the outcomes are used up returns `none`.
-/

namespace Gvfs

/-! ## System calls -/

/-- Outcome of one system call as C sees it: the value returned and the value
of errno afterwards (errno is only meaningful when `ret` is -1). -/
structure SysResult where
  ret : Int
  errno : Int
  deriving DecidableEq, Repr

/-- The errno value of an interrupted system call (errno.h). -/
def EINTR : Int := 4

/-- The errno value of an invalid descriptor (errno.h). -/
def EBADF : Int := 9

/-- The outcome of a system call interrupted by a signal. -/
def interrupted : SysResult := ⟨-1, EINTR⟩

/-- A system call performed on behalf of a stream, with its arguments.
Buffers are identified by their address. -/
inductive Syscall
  | poll (fd : Int) (cancel_fd : Int)
  | write (fd : Int) (buffer : Nat) (count : Nat)
  | close (fd : Int)
  deriving DecidableEq, Repr

/-- Number of write system calls in a trace. -/
def writeCalls (tr : List Syscall) : Nat :=
  (tr.filter (fun c => match c with | Syscall.write _ _ _ => true | _ => false)).length

/-- Number of close system calls in a trace. -/
def closeCalls (tr : List Syscall) : Nat :=
  (tr.filter (fun c => match c with | Syscall.close _ => true | _ => false)).length

/-! ## Errors -/

/-- Modelled from the spec: the codes of the G_VFS_ERROR domain.  The header
gvfserror.h is not among the sources; the source only names
G_VFS_ERROR_CANCELLED, the other two codes are the Closed and Unsupported
entries of the error taxonomy of the specification. -/
inductive GVfsError
  | G_VFS_ERROR_CANCELLED
  | G_VFS_ERROR_CLOSED
  | G_VFS_ERROR_NOT_SUPPORTED
  deriving DecidableEq, Repr

/-- A GError as built by g_set_error in the sources.
`vfs code message` is an error of domain G_VFS_ERROR.
`file errno format` is an error of domain G_FILE_ERROR whose code is
`g_file_error_from_errno (errno)` and whose message is `format` applied to
`g_strerror (errno)`; both are functions of errno, which the model keeps. -/
inductive GError
  | vfs (code : GVfsError) (message : String)
  | file (errno : Int) (format : String)
  deriving DecidableEq, Repr

/-- Error kind and code of a GError, the message left out: the domain
(true for G_VFS_ERROR, false for G_FILE_ERROR) and what determines the code. -/
def GError.kindCode : GError → Bool × (GVfsError ⊕ Int)
  | GError.vfs code _ => (true, Sum.inl code)
  | GError.file errno _ => (false, Sum.inr errno)

/-- Whether an error is the Closed error of the taxonomy. -/
def GError.isClosed : GError → Bool
  | GError.vfs GVfsError.G_VFS_ERROR_CLOSED _ => true
  | _ => false

/-- The error set when the token is found cancelled. -/
def cancelledError : GError :=
  GError.vfs GVfsError.G_VFS_ERROR_CANCELLED "Operation was cancelled"

/-! ## Cancellation token -/

/-- Modelled from the spec: the cancellation token of gcancellable.c, which is
not among the sources.  `fd` is what g_cancellable_get_fd returns (-1 when the
token has no wait descriptor); `cancelled k` is what the k-th call of
g_cancellable_is_cancelled made by the running operation returns (the flag can
be set from another execution context between two calls). -/
structure GCancellable where
  fd : Int
  cancelled : Nat → Bool

/-- Modelled from the spec: g_cancellable_get_fd; with no token there is no
wait descriptor. -/
def g_cancellable_get_fd : Option GCancellable → Int
  | none => -1
  | some c => c.fd

/-- Modelled from the spec: g_cancellable_is_cancelled, at its k-th call by the
running operation; with no token cancellation is never requested. -/
def g_cancellable_is_cancelled : Option GCancellable → Nat → Bool
  | none, _ => false
  | some c, k => c.cancelled k

/-! ## The stream -/

/-- The private data of a socket output stream (struct
_GSocketOutputStreamPrivate). -/
structure GSocketOutputStreamPrivate where
  fd : Int
  close_fd_at_close : Bool
  deriving DecidableEq, Repr

/-- Constructor of the stream: g_socket_output_stream_new. -/
def g_socket_output_stream_new (fd : Int) (close_fd_at_close : Bool) :
    GSocketOutputStreamPrivate :=
  { fd := fd, close_fd_at_close := close_fd_at_close }

/-- What a blocking write leaves behind: the returned value, the error set
through the error argument, the private data of the stream after the call and
the system calls performed, oldest first. -/
structure WriteReturn where
  res : Int
  error : Option GError
  priv : GSocketOutputStreamPrivate
  trace : List Syscall
  deriving DecidableEq, Repr

/-- The do-while loop around poll in g_socket_output_stream_write: poll is
repeated while it fails with EINTR.  Returns the outcome that ended the loop. -/
def poll_loop (fd cancel_fd : Int) :
    List SysResult → List Syscall → Option (SysResult × List Syscall)
  | [], _ => none
  | p :: ps, tr =>
    if p.ret = -1 ∧ p.errno = EINTR then
      poll_loop fd cancel_fd ps (tr ++ [Syscall.poll fd cancel_fd])
    else
      some (p, tr ++ [Syscall.poll fd cancel_fd])

/-- The while (1) loop of g_socket_output_stream_write.  `i` counts the
iterations (it indexes the cancellation checks), `res` is the current content
of the local variable res, the list holds the outcomes of the coming write
system calls and `tr` the system calls performed so far. -/
def write_loop (priv : GSocketOutputStreamPrivate) (buffer count : Nat)
    (cancellable : Option GCancellable) :
    Nat → Int → List SysResult → List Syscall → Option WriteReturn
  | i, res, [], tr =>
    if g_cancellable_is_cancelled cancellable i then
      some ⟨res, some cancelledError, priv, tr⟩
    else none
  | i, res, w :: ws, tr =>
    if g_cancellable_is_cancelled cancellable i then
      some ⟨res, some cancelledError, priv, tr⟩
    else if w.ret = -1 then
      if w.errno = EINTR then
        write_loop priv buffer count cancellable (i + 1) w.ret ws
          (tr ++ [Syscall.write priv.fd buffer count])
      else
        some ⟨w.ret, some (GError.file w.errno "Error writing to socket: %s"), priv,
          tr ++ [Syscall.write priv.fd buffer count]⟩
    else
      some ⟨w.ret, none, priv, tr ++ [Syscall.write priv.fd buffer count]⟩

/-- The blocking write, g_socket_output_stream_write.  The local variable res
is declared without an initial value; `res0` is the value it happens to hold.
`polls` and `writes` are the outcomes of the coming poll and write system
calls. -/
def g_socket_output_stream_write (priv : GSocketOutputStreamPrivate)
    (buffer count : Nat) (cancellable : Option GCancellable) (res0 : Int)
    (polls writes : List SysResult) : Option WriteReturn :=
  let cancel_fd := g_cancellable_get_fd cancellable
  if cancel_fd ≠ -1 then
    match poll_loop priv.fd cancel_fd polls [] with
    | none => none
    | some (p, tr) =>
      if p.ret = -1 then
        some ⟨-1, some (GError.file p.errno "Error writing to socket: %s"), priv, tr⟩
      else
        write_loop priv buffer count cancellable 0 res0 writes tr
  else
    write_loop priv buffer count cancellable 0 res0 writes []

/-- The system calls of the wait phase of the blocking write when the wait is
interrupted j times and then returns: none without a wait descriptor, j + 1
polls otherwise. -/
def waitTrace (priv : GSocketOutputStreamPrivate) (cancellable : Option GCancellable)
    (j : Nat) : List Syscall :=
  if g_cancellable_get_fd cancellable = -1 then []
  else List.replicate (j + 1) (Syscall.poll priv.fd (g_cancellable_get_fd cancellable))

/-- What a blocking close leaves behind: the returned boolean, the error set,
the private data of the stream after the call and the system calls performed. -/
structure CloseReturn where
  res : Bool
  error : Option GError
  priv : GSocketOutputStreamPrivate
  trace : List Syscall
  deriving DecidableEq, Repr

/-- The blocking close, g_socket_output_stream_close.  The body of its
while (1) loop ends in an unconditional break, so it runs once.  The token is
accepted and not consulted.  `closes` holds the outcomes of the coming close
system calls. -/
def g_socket_output_stream_close (priv : GSocketOutputStreamPrivate)
    (_cancellable : Option GCancellable) (closes : List SysResult) :
    Option CloseReturn :=
  if !priv.close_fd_at_close then
    some ⟨true, none, priv, []⟩
  else
    match closes with
    | [] => none
    | c :: _ =>
      if c.ret = -1 then
        some ⟨decide (c.ret ≠ -1), some (GError.file c.errno "Error closing socket: %s"),
          priv, [Syscall.close priv.fd]⟩
      else
        some ⟨decide (c.ret ≠ -1), none, priv, [Syscall.close priv.fd]⟩

/-! ## The reactor-driven path -/

/-- The pending write operation (struct WriteAsyncData).  The completion
callback and the user context are identified by their addresses. -/
structure WriteAsyncData where
  count : Nat
  buffer : Nat
  callback : Nat
  user_data : Nat
  cancellable : Option GCancellable
  stream : GSocketOutputStreamPrivate

/-- One invocation of a write completion callback: which callback, and the six
arguments it received. -/
structure WriteCallbackCall where
  callback : Nat
  stream : GSocketOutputStreamPrivate
  buffer : Nat
  count : Nat
  count_written : Int
  user_data : Nat
  error : Option GError
  deriving DecidableEq, Repr

/-- What a firing of the write trampoline leaves behind: the boolean returned
to the main loop, the callback invocations made and the system calls
performed. -/
structure WriteAsyncReturn where
  ret : Bool
  calls : List WriteCallbackCall
  trace : List Syscall
  deriving DecidableEq, Repr

/-- The while (1) loop of write_async_cb: yields count_written, the error and
the system calls performed. -/
def write_async_loop (data : WriteAsyncData) :
    Nat → List SysResult → List Syscall → Option (Int × Option GError × List Syscall)
  | i, [], tr =>
    if g_cancellable_is_cancelled data.cancellable i then
      some (-1, some cancelledError, tr)
    else none
  | i, w :: ws, tr =>
    if g_cancellable_is_cancelled data.cancellable i then
      some (-1, some cancelledError, tr)
    else if w.ret = -1 then
      if w.errno = EINTR then
        write_async_loop data (i + 1) ws
          (tr ++ [Syscall.write data.stream.fd data.buffer data.count])
      else
        some (w.ret, some (GError.file w.errno "Error reading from socket: %s"),
          tr ++ [Syscall.write data.stream.fd data.buffer data.count])
    else
      some (w.ret, none, tr ++ [Syscall.write data.stream.fd data.buffer data.count])

/-- The write trampoline, write_async_cb: runs the loop, invokes the
completion callback and returns FALSE.  The arguments condition and fd are not
used by the body. -/
def write_async_cb (data : WriteAsyncData) (_condition : Nat) (_fd : Int)
    (writes : List SysResult) : Option WriteAsyncReturn :=
  match write_async_loop data 0 writes [] with
  | none => none
  | some (count_written, error, tr) =>
    some
      { ret := false
        calls := [{ callback := data.callback, stream := data.stream, buffer := data.buffer,
                    count := data.count, count_written := count_written,
                    user_data := data.user_data, error := error }]
        trace := tr }

/-- Modelled from the spec: the reactor registration made by
g_socket_output_stream_write_async through _g_fd_source_new (gasynchelper.c is
not among the sources).  A registration is attached (it holds its pending
operation) or torn down.  A readiness notification for an attached
registration runs the trampoline, and the registration is torn down when the
trampoline returns FALSE; a notification for a registration that was torn down
runs nothing. -/
def fd_source_dispatch (reg : Option WriteAsyncData) (condition : Nat)
    (writes : List SysResult) : Option (Option WriteAsyncData × List WriteCallbackCall) :=
  match reg with
  | none => some (none, [])
  | some data =>
    match write_async_cb data condition data.stream.fd writes with
    | none => none
    | some r => some (if r.ret then some data else none, r.calls)

/-- Modelled from the spec: a run of readiness notifications delivered to one
registration, each with the outcomes of the write system calls that would be
made while it is served.  Yields the registration afterwards and all callback
invocations made. -/
def fd_source_run (condition : Nat) :
    Option WriteAsyncData → List (List SysResult) →
      Option (Option WriteAsyncData × List WriteCallbackCall)
  | reg, [] => some (reg, [])
  | reg, ws :: rest =>
    match fd_source_dispatch reg condition ws with
    | none => none
    | some (reg1, calls) =>
      match fd_source_run condition reg1 rest with
      | none => none
      | some (reg2, calls2) => some (reg2, calls ++ calls2)

/-- The pending close operation (struct CloseAsyncData). -/
structure CloseAsyncData where
  stream : GSocketOutputStreamPrivate
  callback : Nat
  user_data : Nat
  deriving DecidableEq, Repr

/-- One invocation of a close completion callback and its four arguments. -/
structure CloseCallbackCall where
  callback : Nat
  stream : GSocketOutputStreamPrivate
  result : Bool
  user_data : Nat
  error : Option GError
  deriving DecidableEq, Repr

/-- What a firing of the close trampoline leaves behind. -/
structure CloseAsyncReturn where
  ret : Bool
  calls : List CloseCallbackCall
  trace : List Syscall
  deriving DecidableEq, Repr

/-- The close trampoline, close_async_cb.  As in the blocking close the body
of the while (1) loop ends in an unconditional break. -/
def close_async_cb (data : CloseAsyncData) (closes : List SysResult) :
    Option CloseAsyncReturn :=
  if !data.stream.close_fd_at_close then
    some { ret := false
           calls := [⟨data.callback, data.stream, true, data.user_data, none⟩]
           trace := [] }
  else
    match closes with
    | [] => none
    | c :: _ =>
      if c.ret = -1 then
        some { ret := false
               calls := [⟨data.callback, data.stream, decide (c.ret ≠ -1), data.user_data,
                          some (GError.file c.errno "Error closing socket: %s")⟩]
               trace := [Syscall.close data.stream.fd] }
      else
        some { ret := false
               calls := [⟨data.callback, data.stream, decide (c.ret ≠ -1), data.user_data, none⟩]
               trace := [Syscall.close data.stream.fd] }

/-! ## gio/glocalvfs.c -/

/-- ASCII lower-casing of one character, as the TOLOWER of GLib. -/
def asciiToLower (c : Char) : Char :=
  if 'A' ≤ c ∧ c ≤ 'Z' then Char.ofNat (c.toNat + 32) else c

/-- The GLib function g_ascii_strncasecmp on C strings, a string being the list
of its characters and the end of the list standing for the terminating NUL.
Compares at most n characters, ASCII letters without regard to case; zero means
equal, otherwise the difference at the first place where the strings differ. -/
def g_ascii_strncasecmp : List Char → List Char → Nat → Int
  | _, _, 0 => 0
  | [], [], _ + 1 => 0
  | [], c2 :: _, _ + 1 => 0 - (c2.toNat : Int)
  | c1 :: _, [], _ + 1 => (c1.toNat : Int)
  | c1 :: s1, c2 :: s2, n + 1 =>
    if asciiToLower c1 ≠ asciiToLower c2 then
      ((asciiToLower c1).toNat : Int) - ((asciiToLower c2).toNat : Int)
    else g_ascii_strncasecmp s1 s2 n

/-- The function g_local_vfs_parse_name.  The conversions g_filename_from_uri
and g_filename_from_utf8 (GLib) and the constructor g_local_file_new
(glocalfile.c, not among the sources) are parameters; a result of `none` is the
NULL pointer.  `is_vfs` is the outcome of the G_IS_VFS check and a `parse_name`
of `none` is a NULL argument. -/
def g_local_vfs_parse_name {F : Type}
    (g_filename_from_uri g_filename_from_utf8 : String → Option String)
    (g_local_file_new : Option String → Option F)
    (is_vfs : Bool) (parse_name : Option String) : Option F :=
  if !is_vfs then none
  else
    match parse_name with
    | none => none
    | some name =>
      let filename :=
        if g_ascii_strncasecmp "file:".toList name.toList 5 ≠ 0 then
          g_filename_from_uri name
        else
          g_filename_from_utf8 name
      g_local_file_new filename

/-- The wording of the specification: the name begins with "file:", its first
five characters compared without regard to ASCII case. -/
def beginsWithFileScheme (name : String) : Bool :=
  (name.toList.take 5).map asciiToLower == "file:".toList

/-! ## monitor/afc/afcvolumemonitor.c -/

/-- A signal emitted by the monitor through g_signal_emit_by_name, with the
volume passed along. -/
inductive VolumeSignal (V : Type)
  | volume_added (volume : V)
  | volume_removed (volume : V)
  deriving DecidableEq, Repr

/-- The monitor (struct _GVfsAfcVolumeMonitor): the list of volumes, a list
entry being a data pointer (`none` is NULL), together with the signals emitted
on the monitor so far, oldest first. -/
structure GVfsAfcVolumeMonitor (V : Type) where
  volumes : List (Option V)
  signals : List (VolumeSignal V)
  deriving DecidableEq, Repr

/-- The function g_vfs_afc_monitor_create_volume.  `volume_new` stands for
g_vfs_afc_volume_new (afcvolume.c, not among the sources), which yields NULL
when no volume can be created. -/
def g_vfs_afc_monitor_create_volume {V U : Type} (volume_new : U → Option V)
    (self : GVfsAfcVolumeMonitor V) (uuid : U) : GVfsAfcVolumeMonitor V :=
  match volume_new uuid with
  | some volume =>
    { volumes := some volume :: self.volumes
      signals := self.signals ++ [VolumeSignal.volume_added volume] }
  | none => self

/-- The function find_volume_by_uuid: the first non-NULL entry of the list
that has the uuid.  `has_uuid` stands for g_vfs_afc_volume_has_uuid. -/
def find_volume_by_uuid {V U : Type} (has_uuid : V → U → Bool) :
    List (Option V) → U → Option V
  | [], _ => none
  | none :: l, uuid => find_volume_by_uuid has_uuid l uuid
  | some volume :: l, uuid =>
    if has_uuid volume uuid then some volume else find_volume_by_uuid has_uuid l uuid

/-- The function g_vfs_afc_monitor_remove_volume; g_list_remove drops the first
entry whose data pointer is the volume. -/
def g_vfs_afc_monitor_remove_volume {V U : Type} [DecidableEq V] (has_uuid : V → U → Bool)
    (self : GVfsAfcVolumeMonitor V) (uuid : U) : GVfsAfcVolumeMonitor V :=
  match find_volume_by_uuid has_uuid self.volumes uuid with
  | some volume =>
    { volumes := self.volumes.erase (some volume)
      signals := self.signals ++ [VolumeSignal.volume_removed volume] }
  | none => self

/-- The event type of a device attachment (usbmuxd.h). -/
def UE_DEVICE_ADD : Int := 1

/-- The event type of a device removal (usbmuxd.h). -/
def UE_DEVICE_REMOVE : Int := 2

/-- The fields of usbmuxd_event_t the monitor reads. -/
structure usbmuxd_event_t (U : Type) where
  event : Int
  uuid : U

/-- The function g_vfs_afc_monitor_usbmuxd_event; an `event` of `none` is a
NULL event, on which the function returns at once. -/
def g_vfs_afc_monitor_usbmuxd_event {V U : Type} [DecidableEq V]
    (volume_new : U → Option V) (has_uuid : V → U → Bool)
    (event : Option (usbmuxd_event_t U)) (self : GVfsAfcVolumeMonitor V) :
    GVfsAfcVolumeMonitor V :=
  match event with
  | none => self
  | some ev =>
    if ev.event = UE_DEVICE_ADD then
      g_vfs_afc_monitor_create_volume volume_new self ev.uuid
    else
      g_vfs_afc_monitor_remove_volume has_uuid self ev.uuid

/-! ## Properties of the blocking write -/

/-- A run of k interruptions makes the poll loop issue k polls and go on. -/
theorem poll_loop_interrupted (fd cancel_fd : Int) (k : Nat) (ps : List SysResult)
    (tr : List Syscall) :
    poll_loop fd cancel_fd (List.replicate k interrupted ++ ps) tr =
      poll_loop fd cancel_fd ps (tr ++ List.replicate k (Syscall.poll fd cancel_fd)) := by
  induction k generalizing tr with
  | zero => simp
  | succ k ih =>
    rw [List.replicate_succ, List.cons_append, poll_loop]
    simp only [interrupted, EINTR, and_self, if_true]
    have h := ih (tr ++ [Syscall.poll fd cancel_fd])
    simp only [interrupted, EINTR] at h
    rw [h, List.append_assoc]
    rfl

/-- A run of k interruptions, none of them preceded by an observed
cancellation, makes the write loop issue k writes and go on. -/
theorem write_loop_interrupted (priv : GSocketOutputStreamPrivate) (buffer count : Nat)
    (cancellable : Option GCancellable) (k i : Nat) (res : Int) (ws : List SysResult)
    (tr : List Syscall)
    (hc : ∀ j, j < k → g_cancellable_is_cancelled cancellable (i + j) = false) :
    write_loop priv buffer count cancellable i res (List.replicate k interrupted ++ ws) tr =
      write_loop priv buffer count cancellable (i + k) (if k = 0 then res else -1) ws
        (tr ++ List.replicate k (Syscall.write priv.fd buffer count)) := by
  induction k generalizing i res tr with
  | zero => simp
  | succ k ih =>
    have h0 : g_cancellable_is_cancelled cancellable i = false := by
      simpa using hc 0 (Nat.succ_pos k)
    rw [List.replicate_succ, List.cons_append, write_loop]
    simp only [h0, interrupted, EINTR, if_true, Bool.false_eq_true, if_false]
    have h := ih (i + 1) (-1) (tr ++ [Syscall.write priv.fd buffer count])
      (fun j hj => by
        have := hc (j + 1) (Nat.succ_lt_succ hj)
        rwa [show i + (j + 1) = i + 1 + j by omega] at this)
    simp only [interrupted, EINTR] at h
    rw [h]
    simp only [Nat.succ_ne_zero, if_false, List.append_assoc]
    have e1 : i + 1 + k = i + (k + 1) := by omega
    rw [e1]
    cases k <;> rfl

/-- Counting writes distributes over concatenation of traces. -/
theorem writeCalls_append (a b : List Syscall) :
    writeCalls (a ++ b) = writeCalls a + writeCalls b := by
  simp [writeCalls, List.filter_append]

/-- A trace of k polls holds no write. -/
theorem writeCalls_replicate_poll (k : Nat) (fd cancel_fd : Int) :
    writeCalls (List.replicate k (Syscall.poll fd cancel_fd)) = 0 := by
  induction k with
  | zero => rfl
  | succ k ih =>
    rw [List.replicate_succ]
    simp [writeCalls]

/-- A trace of k writes holds k writes. -/
theorem writeCalls_replicate_write (k : Nat) (fd : Int) (buffer count : Nat) :
    writeCalls (List.replicate k (Syscall.write fd buffer count)) = k := by
  induction k with
  | zero => rfl
  | succ k ih =>
    rw [List.replicate_succ]
    simp [writeCalls]

/-- The wait phase holds no write. -/
theorem writeCalls_waitTrace (priv : GSocketOutputStreamPrivate)
    (cancellable : Option GCancellable) (j : Nat) :
    writeCalls (waitTrace priv cancellable j) = 0 := by
  unfold waitTrace
  split
  · rfl
  · exact writeCalls_replicate_poll _ _ _

/-- When the wait does not fail, the blocking write is its loop run after the
wait phase. -/
theorem write_eq_loop_of_wait_ok (priv : GSocketOutputStreamPrivate) (buffer count : Nat)
    (cancellable : Option GCancellable) (res0 : Int) (polls writes : List SysResult)
    (j : Nat) (p : SysResult) (prest : List SysResult)
    (hpoll : g_cancellable_get_fd cancellable ≠ -1 →
      polls = List.replicate j interrupted ++ p :: prest ∧ p.ret ≠ -1) :
    g_socket_output_stream_write priv buffer count cancellable res0 polls writes =
      write_loop priv buffer count cancellable 0 res0 writes
        (waitTrace priv cancellable j) := by
  unfold g_socket_output_stream_write waitTrace
  by_cases hfd : g_cancellable_get_fd cancellable = -1
  · simp [hfd]
  · obtain ⟨hp, hret⟩ := hpoll hfd
    have hni : ¬ (p.ret = -1 ∧ p.errno = EINTR) := fun h => hret h.1
    simp only [ne_eq, hfd, not_false_eq_true, if_true, if_false, hp,
      poll_loop_interrupted, poll_loop, hni, hret, List.nil_append]
    rw [show List.replicate j (Syscall.poll priv.fd (g_cancellable_get_fd cancellable)) ++
        [Syscall.poll priv.fd (g_cancellable_get_fd cancellable)] =
        List.replicate (j + 1) (Syscall.poll priv.fd (g_cancellable_get_fd cancellable)) from
      (List.replicate_succ' ..).symm]
    simp [hret]

/-- The write loop stops at once, without a write, when the token is observed
cancelled. -/
theorem write_loop_cancelled (priv : GSocketOutputStreamPrivate) (buffer count : Nat)
    (cancellable : Option GCancellable) (i : Nat) (res : Int) (ws : List SysResult)
    (tr : List Syscall) (hc : g_cancellable_is_cancelled cancellable i = true) :
    write_loop priv buffer count cancellable i res ws tr =
      some ⟨res, some cancelledError, priv, tr⟩ := by
  cases ws <;> simp [write_loop, hc]

/-- Claim C1: when the token is already cancelled as g_socket_output_stream_write
is called and the multiplexed wait does not fail (there is no wait descriptor,
or poll is interrupted j times and then returns without failing), the call
sets the Cancelled error and performs no write system call, whatever the
buffer, the byte count and the outcomes the write system call would have had.
The value returned is the content of the local variable res, which has not
been assigned. -/
theorem write_cancelled_before_start (priv : GSocketOutputStreamPrivate)
    (buffer count : Nat) (c : GCancellable) (res0 : Int) (polls writes : List SysResult)
    (j : Nat) (p : SysResult) (prest : List SysResult)
    (hcancelled : c.cancelled 0 = true)
    (hpoll : c.fd ≠ -1 → polls = List.replicate j interrupted ++ p :: prest ∧ p.ret ≠ -1) :
    ∃ r, g_socket_output_stream_write priv buffer count (some c) res0 polls writes = some r ∧
      r.error = some cancelledError ∧ writeCalls r.trace = 0 ∧ r.res = res0 := by
  refine ⟨⟨res0, some cancelledError, priv, waitTrace priv (some c) j⟩, ?_, rfl, ?_, rfl⟩
  · rw [write_eq_loop_of_wait_ok priv buffer count (some c) res0 polls writes j p prest hpoll]
    exact write_loop_cancelled _ _ _ _ _ _ _ _ hcancelled
  · exact writeCalls_waitTrace _ _ _

/-- Witness of C1: a token with wait descriptor 7 that is cancelled throughout,
a wait interrupted once, and a write that would have succeeded. -/
theorem write_cancelled_before_start_witness :
    ∃ r, g_socket_output_stream_write ⟨3, true⟩ 4096 5 (some ⟨7, fun _ => true⟩) 0
        [interrupted, ⟨1, 0⟩] [⟨5, 0⟩] = some r ∧
      r.error = some cancelledError ∧ writeCalls r.trace = 0 ∧ r.res = 0 :=
  write_cancelled_before_start ⟨3, true⟩ 4096 5 ⟨7, fun _ => true⟩ 0
    [interrupted, ⟨1, 0⟩] [⟨5, 0⟩] 1 ⟨1, 0⟩ [] rfl (fun _ => ⟨rfl, by decide⟩)

/-- Claim C4: with a token that is never observed cancelled (or no token) and a
wait that does not fail, when the write system call is interrupted k times and
then has an outcome o other than an interruption, the blocking write performs
exactly k + 1 write system calls and returns the value of o: with no error
when o is a success (so a count n with 0 ≤ n ≤ count is returned as it is), and
as -1 with the file error built from the errno of o when o is a failure.  The
outcomes after o are not consumed and no error is built from an interruption. -/
theorem write_retries_interruptions (priv : GSocketOutputStreamPrivate)
    (buffer count : Nat) (cancellable : Option GCancellable) (res0 : Int)
    (polls : List SysResult) (j : Nat) (p : SysResult) (prest : List SysResult)
    (k : Nat) (o : SysResult) (rest : List SysResult)
    (hnever : ∀ i, g_cancellable_is_cancelled cancellable i = false)
    (hpoll : g_cancellable_get_fd cancellable ≠ -1 →
      polls = List.replicate j interrupted ++ p :: prest ∧ p.ret ≠ -1)
    (ho : ¬ (o.ret = -1 ∧ o.errno = EINTR)) :
    ∃ r, g_socket_output_stream_write priv buffer count cancellable res0 polls
        (List.replicate k interrupted ++ o :: rest) = some r ∧
      r.trace = waitTrace priv cancellable j ++
        List.replicate (k + 1) (Syscall.write priv.fd buffer count) ∧
      writeCalls r.trace = k + 1 ∧
      r.res = o.ret ∧
      (o.ret ≠ -1 → r.error = none) ∧
      (0 ≤ o.ret ∧ o.ret ≤ count → 0 ≤ r.res ∧ r.res ≤ count ∧ r.error = none) ∧
      (o.ret = -1 → r.res = -1 ∧ o.errno ≠ EINTR ∧
        r.error = some (GError.file o.errno "Error writing to socket: %s")) := by
  have htr : waitTrace priv cancellable j ++
        List.replicate k (Syscall.write priv.fd buffer count) ++
        [Syscall.write priv.fd buffer count] =
      waitTrace priv cancellable j ++
        List.replicate (k + 1) (Syscall.write priv.fd buffer count) := by
    rw [List.append_assoc, ← List.replicate_succ']
  have hw : writeCalls (waitTrace priv cancellable j ++
      List.replicate (k + 1) (Syscall.write priv.fd buffer count)) = k + 1 := by
    rw [writeCalls_append, writeCalls_waitTrace, writeCalls_replicate_write, Nat.zero_add]
  rw [write_eq_loop_of_wait_ok priv buffer count cancellable res0 polls _ j p prest hpoll,
    write_loop_interrupted priv buffer count cancellable k 0 res0 (o :: rest) _
      (fun i _ => hnever (0 + i))]
  by_cases hret : o.ret = -1
  · have herr : o.errno ≠ EINTR := fun h => ho ⟨hret, h⟩
    refine ⟨⟨o.ret, some (GError.file o.errno "Error writing to socket: %s"), priv,
        waitTrace priv cancellable j ++
          List.replicate (k + 1) (Syscall.write priv.fd buffer count)⟩,
      ?_, rfl, hw, rfl, fun h => absurd hret h, ?_, fun _ => ⟨hret, herr, rfl⟩⟩
    · simp [write_loop, hnever, hret, herr, htr]
    · intro h
      omega
  · refine ⟨⟨o.ret, none, priv, waitTrace priv cancellable j ++
        List.replicate (k + 1) (Syscall.write priv.fd buffer count)⟩, ?_, rfl, hw, rfl,
      fun _ => rfl, fun h => ⟨h.1, h.2, rfl⟩, fun h => absurd h hret⟩
    simp [write_loop, hnever, hret, htr]

/-- Witness of C4: no token, two interruptions, then a short write of 3 of the
5 bytes asked for. -/
theorem write_retries_interruptions_witness :
    ∃ r, g_socket_output_stream_write ⟨3, true⟩ 4096 5 none 0 []
        (List.replicate 2 interrupted ++ ⟨3, 0⟩ :: []) = some r ∧
      r.trace = waitTrace ⟨3, true⟩ none 0 ++ List.replicate (2 + 1) (Syscall.write 3 4096 5) ∧
      writeCalls r.trace = 2 + 1 ∧
      r.res = 3 ∧
      ((3 : Int) ≠ -1 → r.error = none) ∧
      ((0 : Int) ≤ 3 ∧ (3 : Int) ≤ (5 : Nat) → 0 ≤ r.res ∧ r.res ≤ (5 : Nat) ∧ r.error = none) ∧
      ((3 : Int) = -1 → r.res = -1 ∧ (0 : Int) ≠ EINTR ∧
        r.error = some (GError.file 0 "Error writing to socket: %s")) :=
  write_retries_interruptions ⟨3, true⟩ 4096 5 none 0 [] 0 ⟨0, 0⟩ [] 2 ⟨3, 0⟩ []
    (fun _ => rfl) (fun h => absurd rfl h) (by decide)

/-! ## Properties of close -/

/-- Claim C3: on a stream constructed with close_fd_at_close = FALSE, the
blocking close returns TRUE with no error and the close trampoline hands TRUE
and no error to the callback, and neither performs a system call, whatever the
descriptor, the token and the outcomes a close system call would have had. -/
theorem close_not_owning (fd : Int) (cancellable : Option GCancellable)
    (closes : List SysResult) (callback user_data : Nat) :
    g_socket_output_stream_close (g_socket_output_stream_new fd false) cancellable closes =
        some ⟨true, none, g_socket_output_stream_new fd false, []⟩ ∧
      close_async_cb ⟨g_socket_output_stream_new fd false, callback, user_data⟩ closes =
        some ⟨false,
          [⟨callback, g_socket_output_stream_new fd false, true, user_data, none⟩], []⟩ ∧
      closeCalls [] = 0 := by
  refine ⟨?_, ?_, rfl⟩
  · simp [g_socket_output_stream_close, g_socket_output_stream_new]
  · simp [close_async_cb, g_socket_output_stream_new]

/-- The blocking close on an owning stream: one close system call, whose
outcome is reported. -/
theorem blocking_close_owning (priv : GSocketOutputStreamPrivate)
    (cancellable : Option GCancellable) (c : SysResult) (rest : List SysResult)
    (hown : priv.close_fd_at_close = true) :
    g_socket_output_stream_close priv cancellable (c :: rest) =
      some ⟨decide (c.ret ≠ -1),
        if c.ret = -1 then some (GError.file c.errno "Error closing socket: %s") else none,
        priv, [Syscall.close priv.fd]⟩ := by
  by_cases h : c.ret = -1 <;> simp [g_socket_output_stream_close, hown, h]

/-- The close trampoline on an owning stream: one close system call, whose
outcome is handed to the callback. -/
theorem close_trampoline_owning (priv : GSocketOutputStreamPrivate)
    (callback user_data : Nat) (c : SysResult) (rest : List SysResult)
    (hown : priv.close_fd_at_close = true) :
    close_async_cb ⟨priv, callback, user_data⟩ (c :: rest) =
      some ⟨false,
        [⟨callback, priv, decide (c.ret ≠ -1), user_data,
          if c.ret = -1 then some (GError.file c.errno "Error closing socket: %s")
          else none⟩],
        [Syscall.close priv.fd]⟩ := by
  by_cases h : c.ret = -1 <;> simp [close_async_cb, hown, h]

/-- Counterexample to C5: on a stream that owns descriptor 3, a close system
call that is interrupted and would succeed when repeated is not repeated.  The
blocking close returns FALSE with the file error of EINTR after one close
system call, and the close trampoline hands FALSE and that error to the
callback. -/
theorem close_interrupted_not_retried :
    g_socket_output_stream_close ⟨3, true⟩ none [interrupted, ⟨0, 0⟩] =
        some ⟨false, some (GError.file EINTR "Error closing socket: %s"), ⟨3, true⟩,
          [Syscall.close 3]⟩ ∧
      close_async_cb ⟨⟨3, true⟩, 11, 12⟩ [interrupted, ⟨0, 0⟩] =
        some ⟨false,
          [⟨11, ⟨3, true⟩, false, 12, some (GError.file EINTR "Error closing socket: %s")⟩],
          [Syscall.close 3]⟩ := by
  constructor <;> rfl

/-- Claim C5 as amended: on a stream that owns its descriptor, the blocking
close and the close trampoline perform the close system call exactly once and
report its outcome: success when it did not return -1, and otherwise failure
with the file error built from errno, an interruption (EINTR) included.  The
outcomes a repeated close would have had are not consumed. -/
theorem close_owning_once (priv : GSocketOutputStreamPrivate)
    (cancellable : Option GCancellable) (callback user_data : Nat)
    (c : SysResult) (rest : List SysResult) (hown : priv.close_fd_at_close = true) :
    g_socket_output_stream_close priv cancellable (c :: rest) =
        some ⟨decide (c.ret ≠ -1),
          if c.ret = -1 then some (GError.file c.errno "Error closing socket: %s") else none,
          priv, [Syscall.close priv.fd]⟩ ∧
      close_async_cb ⟨priv, callback, user_data⟩ (c :: rest) =
        some ⟨false,
          [⟨callback, priv, decide (c.ret ≠ -1), user_data,
            if c.ret = -1 then some (GError.file c.errno "Error closing socket: %s")
            else none⟩],
          [Syscall.close priv.fd]⟩ ∧
      closeCalls [Syscall.close priv.fd] = 1 :=
  ⟨blocking_close_owning priv cancellable c rest hown,
    close_trampoline_owning priv callback user_data c rest hown, rfl⟩

/-- Witness of the amended C5: an owning stream whose close is interrupted. -/
theorem close_owning_once_witness :
    g_socket_output_stream_close ⟨3, true⟩ none (interrupted :: [⟨0, 0⟩]) =
        some ⟨decide (interrupted.ret ≠ -1),
          if interrupted.ret = -1 then
            some (GError.file interrupted.errno "Error closing socket: %s")
          else none,
          ⟨3, true⟩, [Syscall.close 3]⟩ ∧
      close_async_cb ⟨⟨3, true⟩, 11, 12⟩ (interrupted :: [⟨0, 0⟩]) =
        some ⟨false,
          [⟨11, ⟨3, true⟩, decide (interrupted.ret ≠ -1), 12,
            if interrupted.ret = -1 then
              some (GError.file interrupted.errno "Error closing socket: %s")
            else none⟩],
          [Syscall.close 3]⟩ ∧
      closeCalls [Syscall.close 3] = 1 :=
  close_owning_once ⟨3, true⟩ none 11 12 interrupted [⟨0, 0⟩] rfl

/-- Counterexample to C2: on a stream that owns descriptor 3, after a close
that succeeded, a write performs a write system call on descriptor 3 and
returns its 5 bytes with no error, and a second close performs a second close
system call and reports the failure of that call (EBADF) as a file error;
neither reports a Closed error. -/
theorem operations_after_close_reach_descriptor :
    g_socket_output_stream_close ⟨3, true⟩ none [⟨0, 0⟩] =
        some ⟨true, none, ⟨3, true⟩, [Syscall.close 3]⟩ ∧
      (g_socket_output_stream_close ⟨3, true⟩ none [⟨0, 0⟩]).bind
          (fun r => g_socket_output_stream_write r.priv 4096 5 none 0 [] [⟨5, 0⟩]) =
        some ⟨5, none, ⟨3, true⟩, [Syscall.write 3 4096 5]⟩ ∧
      (g_socket_output_stream_close ⟨3, true⟩ none [⟨0, 0⟩]).bind
          (fun r => g_socket_output_stream_close r.priv none [⟨-1, EBADF⟩]) =
        some ⟨false, some (GError.file EBADF "Error closing socket: %s"), ⟨3, true⟩,
          [Syscall.close 3]⟩ := by
  refine ⟨?_, ?_, ?_⟩ <;> rfl

/-- Claim C2 as amended: a close that succeeds on a stream that owns its
descriptor records nothing in the stream, whose private data (the descriptor
and the close_fd_at_close flag) is left as it was.  A write that follows, with
no token and a write system call that is not interrupted, performs that system
call on the descriptor and returns its outcome; a second close performs the
close system call again and reports its outcome.  Neither of them sets a
Closed error. -/
theorem close_records_no_closed_state (priv : GSocketOutputStreamPrivate)
    (cancellable : Option GCancellable) (c : SysResult) (rest : List SysResult)
    (hown : priv.close_fd_at_close = true) (hok : c.ret ≠ -1) :
    ∃ r1, g_socket_output_stream_close priv cancellable (c :: rest) = some r1 ∧
      r1.res = true ∧ r1.error = none ∧ r1.priv = priv ∧
      (∀ (buffer count : Nat) (res0 : Int) (o : SysResult) (wrest : List SysResult),
        ¬ (o.ret = -1 ∧ o.errno = EINTR) →
        ∃ r2, g_socket_output_stream_write r1.priv buffer count none res0 [] (o :: wrest) =
            some r2 ∧
          r2.trace = [Syscall.write priv.fd buffer count] ∧ r2.res = o.ret ∧
          (o.ret ≠ -1 → r2.error = none) ∧
          ∀ e, r2.error = some e → e.isClosed = false) ∧
      (∀ (cancellable2 : Option GCancellable) (c2 : SysResult) (crest : List SysResult),
        ∃ r3, g_socket_output_stream_close r1.priv cancellable2 (c2 :: crest) = some r3 ∧
          r3.trace = [Syscall.close priv.fd] ∧ r3.res = decide (c2.ret ≠ -1) ∧
          ∀ e, r3.error = some e → e.isClosed = false) := by
  refine ⟨⟨true, none, priv, [Syscall.close priv.fd]⟩, ?_, rfl, rfl, rfl, ?_, ?_⟩
  · simp [g_socket_output_stream_close, hown, hok]
  · intro buffer count res0 o wrest ho
    by_cases hret : o.ret = -1
    · have herr : o.errno ≠ EINTR := fun h => ho ⟨hret, h⟩
      refine ⟨⟨o.ret, some (GError.file o.errno "Error writing to socket: %s"), priv,
        [Syscall.write priv.fd buffer count]⟩, ?_, rfl, rfl, fun h => absurd hret h, ?_⟩
      · simp [g_socket_output_stream_write, g_cancellable_get_fd, write_loop,
          g_cancellable_is_cancelled, hret, herr]
      · intro e he
        cases he
        rfl
    · refine ⟨⟨o.ret, none, priv, [Syscall.write priv.fd buffer count]⟩, ?_, rfl, rfl,
        fun _ => rfl, ?_⟩
      · simp [g_socket_output_stream_write, g_cancellable_get_fd, write_loop,
          g_cancellable_is_cancelled, hret]
      · intro e he
        cases he
  · intro cancellable2 c2 crest
    have h := blocking_close_owning priv cancellable2 c2 crest hown
    refine ⟨_, h, rfl, rfl, ?_⟩
    intro e he
    by_cases hret : c2.ret = -1
    · simp only [hret, if_true, Option.some.injEq] at he
      subst he
      rfl
    · simp [hret] at he

/-- Witness of the amended C2: an owning stream over descriptor 3 whose close
returns 0. -/
theorem close_records_no_closed_state_witness :
    ∃ r1, g_socket_output_stream_close ⟨3, true⟩ none (⟨0, 0⟩ :: []) = some r1 ∧
      r1.res = true ∧ r1.error = none ∧ r1.priv = ⟨3, true⟩ ∧
      (∀ (buffer count : Nat) (res0 : Int) (o : SysResult) (wrest : List SysResult),
        ¬ (o.ret = -1 ∧ o.errno = EINTR) →
        ∃ r2, g_socket_output_stream_write r1.priv buffer count none res0 [] (o :: wrest) =
            some r2 ∧
          r2.trace = [Syscall.write 3 buffer count] ∧ r2.res = o.ret ∧
          (o.ret ≠ -1 → r2.error = none) ∧
          ∀ e, r2.error = some e → e.isClosed = false) ∧
      (∀ (cancellable2 : Option GCancellable) (c2 : SysResult) (crest : List SysResult),
        ∃ r3, g_socket_output_stream_close r1.priv cancellable2 (c2 :: crest) = some r3 ∧
          r3.trace = [Syscall.close 3] ∧ r3.res = decide (c2.ret ≠ -1) ∧
          ∀ e, r3.error = some e → e.isClosed = false) :=
  close_records_no_closed_state ⟨3, true⟩ none ⟨0, 0⟩ [] rfl (by decide)

/-! ## Properties of the write trampoline -/

/-- A run of k interruptions, none of them preceded by an observed
cancellation, makes the loop of the trampoline issue k writes and go on. -/
theorem write_async_loop_interrupted (data : WriteAsyncData) (k i : Nat)
    (ws : List SysResult) (tr : List Syscall)
    (hc : ∀ j, j < k → g_cancellable_is_cancelled data.cancellable (i + j) = false) :
    write_async_loop data i (List.replicate k interrupted ++ ws) tr =
      write_async_loop data (i + k) ws
        (tr ++ List.replicate k (Syscall.write data.stream.fd data.buffer data.count)) := by
  induction k generalizing i tr with
  | zero => simp
  | succ k ih =>
    have h0 : g_cancellable_is_cancelled data.cancellable i = false := by
      simpa using hc 0 (Nat.succ_pos k)
    rw [List.replicate_succ, List.cons_append, write_async_loop]
    simp only [h0, interrupted, EINTR, if_true, Bool.false_eq_true, if_false]
    have h := ih (i + 1) (tr ++ [Syscall.write data.stream.fd data.buffer data.count])
      (fun j hj => by
        have := hc (j + 1) (Nat.succ_lt_succ hj)
        rwa [show i + (j + 1) = i + 1 + j by omega] at this)
    simp only [interrupted, EINTR] at h
    rw [h, List.append_assoc, show i + 1 + k = i + (k + 1) by omega]
    rfl

/-- The loop of the trampoline stops at once, without a write, when the token
is observed cancelled. -/
theorem write_async_loop_cancelled (data : WriteAsyncData) (i : Nat) (ws : List SysResult)
    (tr : List Syscall) (hc : g_cancellable_is_cancelled data.cancellable i = true) :
    write_async_loop data i ws tr = some (-1, some cancelledError, tr) := by
  cases ws <;> simp [write_async_loop, hc]

/-- The loop of the trampoline ends when the write system call is interrupted
finitely often: it yields -1 exactly when it yields an error, and without an
error it yields what the last write system call returned, after k + 1 writes. -/
theorem write_async_loop_ends (data : WriteAsyncData) (k i : Nat) (o : SysResult)
    (rest : List SysResult) (tr : List Syscall) (ho : ¬ (o.ret = -1 ∧ o.errno = EINTR)) :
    ∃ result error tr1,
      write_async_loop data i (List.replicate k interrupted ++ o :: rest) tr =
        some (result, error, tr1) ∧
      (result = -1 ↔ error ≠ none) ∧
      (error = none → result = o.ret ∧
        tr1 = tr ++
          List.replicate (k + 1) (Syscall.write data.stream.fd data.buffer data.count)) := by
  induction k generalizing i tr with
  | zero =>
    by_cases hc : g_cancellable_is_cancelled data.cancellable i = true
    · exact ⟨-1, some cancelledError, tr, by simp [write_async_loop, hc], by simp, by simp⟩
    · by_cases hret : o.ret = -1
      · have herr : o.errno ≠ EINTR := fun h => ho ⟨hret, h⟩
        exact ⟨o.ret, some (GError.file o.errno "Error reading from socket: %s"),
          tr ++ [Syscall.write data.stream.fd data.buffer data.count],
          by simp [write_async_loop, hc, hret, herr], by simp [hret], by simp⟩
      · exact ⟨o.ret, none, tr ++ [Syscall.write data.stream.fd data.buffer data.count],
          by simp [write_async_loop, hc, hret], by simp [hret], by simp⟩
  | succ k ih =>
    by_cases hc : g_cancellable_is_cancelled data.cancellable i = true
    · exact ⟨-1, some cancelledError, tr,
        by simp [List.replicate_succ, write_async_loop, hc], by simp, by simp⟩
    · obtain ⟨result, error, tr1, h1, h2, h3⟩ :=
        ih (i + 1) (tr ++ [Syscall.write data.stream.fd data.buffer data.count])
      refine ⟨result, error, tr1, ?_, h2, ?_⟩
      · rw [List.replicate_succ, List.cons_append, write_async_loop]
        simp only [hc, interrupted, EINTR, if_true, if_false]
        simpa only [interrupted, EINTR] using h1
      · intro he
        obtain ⟨h4, h5⟩ := h3 he
        refine ⟨h4, ?_⟩
        rw [h5, List.append_assoc]
        rfl

/-- A registration that was torn down stays torn down and invokes no callback,
however many readiness notifications follow. -/
theorem fd_source_run_torn_down (condition : Nat) (later : List (List SysResult)) :
    fd_source_run condition none later = some (none, []) := by
  induction later with
  | nil => rfl
  | cons ws rest ih => simp [fd_source_run, fd_source_dispatch, ih]

/-- When the token is not observed cancelled in the iterations 0 to k, the loop
of the trampoline performs k + 1 writes and yields what the last one returned:
its value with no error when it is not -1, and -1 with the file error built
from its errno otherwise. -/
theorem write_async_loop_not_cancelled (data : WriteAsyncData) (k i : Nat) (o : SysResult)
    (rest : List SysResult) (tr : List Syscall) (ho : ¬ (o.ret = -1 ∧ o.errno = EINTR))
    (hnc : ∀ j, j ≤ k → g_cancellable_is_cancelled data.cancellable (i + j) = false) :
    write_async_loop data i (List.replicate k interrupted ++ o :: rest) tr =
      some (o.ret,
        if o.ret = -1 then some (GError.file o.errno "Error reading from socket: %s")
        else none,
        tr ++ List.replicate (k + 1)
          (Syscall.write data.stream.fd data.buffer data.count)) := by
  rw [write_async_loop_interrupted data k i (o :: rest) tr
    (fun j hj => hnc j (Nat.le_of_lt hj))]
  have hk : g_cancellable_is_cancelled data.cancellable (i + k) = false :=
    hnc k (Nat.le_refl k)
  have htr : tr ++ List.replicate k (Syscall.write data.stream.fd data.buffer data.count) ++
      [Syscall.write data.stream.fd data.buffer data.count] =
      tr ++ List.replicate (k + 1)
        (Syscall.write data.stream.fd data.buffer data.count) := by
    rw [List.append_assoc, ← List.replicate_succ']
  by_cases hret : o.ret = -1
  · have herr : o.errno ≠ EINTR := fun h => ho ⟨hret, h⟩
    simp [write_async_loop, hk, hret, herr, htr]
  · simp [write_async_loop, hk, hret, htr]

/-- When the token is first observed cancelled at iteration j, after j
interrupted writes, the loop of the trampoline yields -1 and the Cancelled
error after exactly those j writes. -/
theorem write_async_loop_cancelled_at (data : WriteAsyncData) (j i : Nat)
    (ws : List SysResult) (tr : List Syscall)
    (hbefore : ∀ m, m < j → g_cancellable_is_cancelled data.cancellable (i + m) = false)
    (hat : g_cancellable_is_cancelled data.cancellable (i + j) = true) :
    write_async_loop data i (List.replicate j interrupted ++ ws) tr =
      some (-1, some cancelledError,
        tr ++ List.replicate j (Syscall.write data.stream.fd data.buffer data.count)) := by
  rw [write_async_loop_interrupted data j i ws tr hbefore]
  exact write_async_loop_cancelled data (i + j) ws _ hat

/-- Claim C6: in a firing of write_async_cb in which the write system call is
interrupted k times and then has an outcome o that is not an interruption, the
completion callback is invoked exactly once, with the stream, the buffer, the
requested count, a result, the user context and an error, and the trampoline
returns FALSE.  The result is -1 exactly when the error is set.  When the
token is not observed cancelled in the iterations 0 to k, k + 1 write system
calls are made and the callback receives the value the last one returned: the
byte count with no error when that value is not -1, and -1 with the file error
built from its errno otherwise.  When the token is first observed cancelled
at an iteration j ≤ k, the callback receives -1 and the Cancelled error after
j write system calls.  Readiness notifications that follow the firing find the
registration torn down and invoke no callback. -/
theorem write_async_cb_delivers_once (data : WriteAsyncData) (condition : Nat) (fd : Int)
    (k : Nat) (o : SysResult) (rest : List SysResult)
    (ho : ¬ (o.ret = -1 ∧ o.errno = EINTR)) :
    ∃ r result error,
      write_async_cb data condition fd (List.replicate k interrupted ++ o :: rest) = some r ∧
      r.ret = false ∧
      r.calls = [⟨data.callback, data.stream, data.buffer, data.count, result,
        data.user_data, error⟩] ∧
      (result = -1 ↔ error ≠ none) ∧
      (error = none → result = o.ret ∧ writeCalls r.trace = k + 1) ∧
      ((∀ i, i ≤ k → g_cancellable_is_cancelled data.cancellable i = false) →
        result = o.ret ∧
        error = (if o.ret = -1 then
            some (GError.file o.errno "Error reading from socket: %s")
          else none) ∧
        r.trace = List.replicate (k + 1)
          (Syscall.write data.stream.fd data.buffer data.count)) ∧
      (∀ j, j ≤ k →
        (∀ i, i < j → g_cancellable_is_cancelled data.cancellable i = false) →
        g_cancellable_is_cancelled data.cancellable j = true →
        result = -1 ∧ error = some cancelledError ∧
        r.trace = List.replicate j
          (Syscall.write data.stream.fd data.buffer data.count)) ∧
      ∀ later : List (List SysResult),
        fd_source_run condition (some data)
          ((List.replicate k interrupted ++ o :: rest) :: later) = some (none, r.calls) := by
  obtain ⟨result, error, tr1, h1, h2, h3⟩ := write_async_loop_ends data k 0 o rest [] ho
  have hcb : ∀ fd1, write_async_cb data condition fd1
      (List.replicate k interrupted ++ o :: rest) =
      some ⟨false, [⟨data.callback, data.stream, data.buffer, data.count, result,
        data.user_data, error⟩], tr1⟩ := by
    intro fd1
    simp [write_async_cb, h1]
  refine ⟨_, result, error, hcb fd, rfl, rfl, h2, ?_, ?_, ?_, ?_⟩
  · intro he
    obtain ⟨h4, h5⟩ := h3 he
    refine ⟨h4, ?_⟩
    show writeCalls tr1 = k + 1
    rw [h5, List.nil_append, writeCalls_replicate_write]
  · intro hnc
    have h := write_async_loop_not_cancelled data k 0 o rest [] ho
      (fun j hj => by simpa using hnc j hj)
    rw [h1, List.nil_append] at h
    simp only [Option.some.injEq, Prod.mk.injEq] at h
    exact h
  · intro j hj hbefore hat
    have hsplit : List.replicate k interrupted ++ o :: rest =
        List.replicate j interrupted ++ (List.replicate (k - j) interrupted ++ o :: rest) := by
      rw [← List.append_assoc, ← List.replicate_add, Nat.add_sub_cancel' hj]
    have h := write_async_loop_cancelled_at data j 0
      (List.replicate (k - j) interrupted ++ o :: rest) []
      (fun m hm => by simpa using hbefore m hm) (by simpa using hat)
    rw [← hsplit, h1, List.nil_append] at h
    simp only [Option.some.injEq, Prod.mk.injEq] at h
    exact h
  · intro later
    simp [fd_source_run, fd_source_dispatch, hcb, fd_source_run_torn_down]

/-- Witness of C6: under a token that is never cancelled the write system call
is interrupted once and then writes 3 of the 5 bytes asked for.  Two write
system calls are made, the callback is invoked once and receives the byte count
3 with no error, the trampoline returns FALSE, and two further readiness
notifications invoke nothing. -/
theorem write_async_cb_delivers_once_witness :
    ¬ ((⟨3, 0⟩ : SysResult).ret = -1 ∧ (⟨3, 0⟩ : SysResult).errno = EINTR) ∧
      write_async_cb ⟨5, 4096, 11, 12, some ⟨-1, fun _ => false⟩, ⟨3, true⟩⟩ 4 3
          (List.replicate 1 interrupted ++ ⟨3, 0⟩ :: []) =
        some ⟨false, [⟨11, ⟨3, true⟩, 4096, 5, 3, 12, none⟩],
          [Syscall.write 3 4096 5, Syscall.write 3 4096 5]⟩ ∧
      fd_source_run 4 (some ⟨5, 4096, 11, 12, some ⟨-1, fun _ => false⟩, ⟨3, true⟩⟩)
          ((List.replicate 1 interrupted ++ ⟨3, 0⟩ :: []) :: [[⟨5, 0⟩], []]) =
        some (none, [⟨11, ⟨3, true⟩, 4096, 5, 3, 12, none⟩]) := by
  obtain ⟨r, result, error, hr, hret, hcalls, _, _, hpin, _, hlater⟩ :=
    write_async_cb_delivers_once
      ⟨5, 4096, 11, 12, some ⟨-1, fun _ => false⟩, ⟨3, true⟩⟩ 4 3 1 ⟨3, 0⟩ [] (by decide)
  obtain ⟨hres, herr, htrace⟩ := hpin (fun _ _ => rfl)
  have hcalls1 : r.calls = [⟨11, ⟨3, true⟩, 4096, 5, 3, 12, none⟩] := by
    rw [hcalls, hres, herr]
    rfl
  refine ⟨by decide, ?_, ?_⟩
  · rw [hr]
    cases r with
    | mk ret calls trace =>
      simp only at hret hcalls1 htrace
      rw [hret, hcalls1, htrace]
      rfl
  · rw [hlater [[⟨5, 0⟩], []], hcalls1]

/-- Claim C7: when write_async_cb finds the token cancelled at the start of
iteration j of its loop (the first iteration when j = 0, or after j interrupted
writes), the callback receives -1 and the Cancelled error, never a byte count,
and no write system call follows the j interrupted ones, whatever outcomes
further write system calls would have had. -/
theorem write_async_cb_cancelled (data : WriteAsyncData) (condition : Nat) (fd : Int)
    (j : Nat) (rest : List SysResult)
    (hbefore : ∀ i, i < j → g_cancellable_is_cancelled data.cancellable i = false)
    (hat : g_cancellable_is_cancelled data.cancellable j = true) :
    write_async_cb data condition fd (List.replicate j interrupted ++ rest) =
      some ⟨false,
        [⟨data.callback, data.stream, data.buffer, data.count, -1, data.user_data,
          some cancelledError⟩],
        List.replicate j (Syscall.write data.stream.fd data.buffer data.count)⟩ := by
  have h := write_async_loop_interrupted data j 0 rest []
    (fun i hi => by simpa using hbefore i hi)
  rw [Nat.zero_add, List.nil_append] at h
  simp [write_async_cb, h, write_async_loop_cancelled data j rest _ hat]

/-- Witness of C7: the token is cancelled after two interrupted writes, and the
third write would have written 5 bytes. -/
theorem write_async_cb_cancelled_witness :
    write_async_cb ⟨5, 4096, 11, 12, some ⟨-1, fun i => decide (2 ≤ i)⟩, ⟨3, true⟩⟩ 4 3
        (List.replicate 2 interrupted ++ [⟨5, 0⟩]) =
      some ⟨false, [⟨11, ⟨3, true⟩, 4096, 5, -1, 12, some cancelledError⟩],
        List.replicate 2 (Syscall.write 3 4096 5)⟩ :=
  write_async_cb_cancelled ⟨5, 4096, 11, 12, some ⟨-1, fun i => decide (2 ≤ i)⟩, ⟨3, true⟩⟩
    4 3 2 [⟨5, 0⟩]
    (fun i hi => by
      show decide (2 ≤ i) = false
      exact decide_eq_false (by omega))
    rfl

/-! ## The two write loops compared -/

/-- The loop of the blocking write entered with res = -1 and the loop of the
trampoline yield the same value, the same error kind and code, and the same
system calls. -/
theorem write_loop_agrees_with_async_loop (data : WriteAsyncData) (i : Nat)
    (ws : List SysResult) (tr : List Syscall) :
    (write_loop data.stream data.buffer data.count data.cancellable i (-1) ws tr).map
        (fun r => (r.res, r.error.map GError.kindCode, r.trace)) =
      (write_async_loop data i ws tr).map
        (fun x => (x.1, x.2.1.map GError.kindCode, x.2.2)) := by
  induction ws generalizing i tr with
  | nil =>
    by_cases hc : g_cancellable_is_cancelled data.cancellable i = true <;>
      simp [write_loop, write_async_loop, hc]
  | cons w ws ih =>
    by_cases hc : g_cancellable_is_cancelled data.cancellable i = true
    · simp [write_loop, write_async_loop, hc]
    · by_cases hret : w.ret = -1
      · by_cases herr : w.errno = EINTR
        · simp only [write_loop, write_async_loop, hc, hret, herr, if_true, if_false]
          exact ih (i + 1) _
        · simp [write_loop, write_async_loop, hc, hret, herr, GError.kindCode]
      · simp [write_loop, write_async_loop, hc, hret]

/-- When the token is not observed cancelled at an iteration, the content of
res at the start of that iteration does not matter. -/
theorem write_loop_res_irrelevant (priv : GSocketOutputStreamPrivate) (buffer count : Nat)
    (cancellable : Option GCancellable) (i : Nat) (res res1 : Int) (ws : List SysResult)
    (tr : List Syscall) (hc : g_cancellable_is_cancelled cancellable i = false) :
    write_loop priv buffer count cancellable i res ws tr =
      write_loop priv buffer count cancellable i res1 ws tr := by
  cases ws <;> simp [write_loop, hc]

/-- Evaluation for claim C8 at its failing input: the token (without wait
descriptor) is already cancelled at the first iteration and the local variable
res of the blocking write holds 0.  The blocking write returns 0 together with
the Cancelled error, while the trampoline hands -1 and the Cancelled error to
its callback; neither performs a system call. -/
theorem blocking_write_cancelled_first_returns_res :
    g_socket_output_stream_write ⟨3, true⟩ 4096 5 (some ⟨-1, fun _ => true⟩) 0 [] [⟨5, 0⟩] =
        some ⟨0, some cancelledError, ⟨3, true⟩, []⟩ ∧
      write_async_cb ⟨5, 4096, 11, 12, some ⟨-1, fun _ => true⟩, ⟨3, true⟩⟩ 4 3 [⟨5, 0⟩] =
        some ⟨false, [⟨11, ⟨3, true⟩, 4096, 5, -1, 12, some cancelledError⟩], []⟩ := by
  constructor <;> rfl

/-! ## Properties of g_local_vfs_parse_name -/

/-- Evaluation for claim C9 at its failing inputs: the name "file:///tmp/a",
which begins with "file:", is converted with g_filename_from_utf8, and the
name "/tmp/a", which does not, is decoded with g_filename_from_uri. -/
theorem parse_name_branches_swapped {F : Type}
    (g_filename_from_uri g_filename_from_utf8 : String → Option String)
    (g_local_file_new : Option String → Option F) :
    g_local_vfs_parse_name g_filename_from_uri g_filename_from_utf8 g_local_file_new true
        (some "file:///tmp/a") = g_local_file_new (g_filename_from_utf8 "file:///tmp/a") ∧
      g_local_vfs_parse_name g_filename_from_uri g_filename_from_utf8 g_local_file_new true
        (some "/tmp/a") = g_local_file_new (g_filename_from_uri "/tmp/a") ∧
      beginsWithFileScheme "file:///tmp/a" = true ∧
      beginsWithFileScheme "/tmp/a" = false := by
  have h1 : g_ascii_strncasecmp "file:".toList "file:///tmp/a".toList 5 = 0 := by decide
  have h2 : g_ascii_strncasecmp "file:".toList "/tmp/a".toList 5 ≠ 0 := by decide
  refine ⟨?_, ?_, by decide, by decide⟩
  · show g_local_file_new
        (if g_ascii_strncasecmp "file:".toList "file:///tmp/a".toList 5 ≠ 0 then
          g_filename_from_uri "file:///tmp/a"
        else g_filename_from_utf8 "file:///tmp/a") = _
    rw [if_neg (not_not.mpr h1)]
  · show g_local_file_new
        (if g_ascii_strncasecmp "file:".toList "/tmp/a".toList 5 ≠ 0 then
          g_filename_from_uri "/tmp/a"
        else g_filename_from_utf8 "/tmp/a") = _
    rw [if_pos h2]

/-- Two characters with the same code are the same character. -/
theorem char_eq_of_toNat_eq (a b : Char) (h : a.toNat = b.toNat) : a = b := by
  rw [← Char.ofNat_toNat a, ← Char.ofNat_toNat b, h]

/-- Against a pattern of lower-case characters none of which is NUL, comparing
as many characters as the pattern has yields zero exactly when the other string
begins with the pattern up to ASCII case. -/
theorem g_ascii_strncasecmp_eq_zero_iff (pat : List Char)
    (hpat : ∀ p, p ∈ pat → asciiToLower p = p ∧ p.toNat ≠ 0) (s : List Char) :
    g_ascii_strncasecmp pat s pat.length = 0 ↔
      (s.take pat.length).map asciiToLower = pat := by
  induction pat generalizing s with
  | nil => simp [g_ascii_strncasecmp]
  | cons p ps ih =>
    obtain ⟨hlow, hnz⟩ := hpat p (List.mem_cons_self _ _)
    have ih1 := ih (fun q hq => hpat q (List.mem_cons_of_mem _ hq))
    cases s with
    | nil =>
      simp only [List.length_cons, g_ascii_strncasecmp, List.take_nil, List.map_nil]
      constructor
      · intro h
        exact absurd (by exact_mod_cast h) hnz
      · intro h
        cases h
    | cons c cs =>
      simp only [List.length_cons, g_ascii_strncasecmp, List.take_succ_cons, List.map_cons,
        List.cons.injEq, hlow]
      by_cases hc : p = asciiToLower c
      · simp [hc.symm, ih1 cs]
      · simp only [ne_eq, hc, not_false_eq_true, if_true]
        constructor
        · intro h
          exact absurd (char_eq_of_toNat_eq _ _ (by omega)) hc
        · intro h
          exact absurd h.1.symm hc

/-- The comparison made by g_local_vfs_parse_name yields zero exactly when the
name begins with "file:" in the sense of the specification. -/
theorem file_scheme_compare_eq_zero_iff (name : String) :
    g_ascii_strncasecmp "file:".toList name.toList 5 = 0 ↔
      beginsWithFileScheme name = true := by
  have h := g_ascii_strncasecmp_eq_zero_iff "file:".toList (by decide) name.toList
  simpa [beginsWithFileScheme] using h

/-- What g_local_vfs_parse_name computes on every name: the name is converted
with g_filename_from_utf8 when it begins with "file:" and decoded with
g_filename_from_uri when it does not, and the file is g_local_file_new of the
result. -/
theorem parse_name_conversion {F : Type}
    (g_filename_from_uri g_filename_from_utf8 : String → Option String)
    (g_local_file_new : Option String → Option F) (name : String) :
    g_local_vfs_parse_name g_filename_from_uri g_filename_from_utf8 g_local_file_new true
        (some name) =
      g_local_file_new
        (if beginsWithFileScheme name then g_filename_from_utf8 name
         else g_filename_from_uri name) := by
  show g_local_file_new
      (if g_ascii_strncasecmp "file:".toList name.toList 5 ≠ 0 then g_filename_from_uri name
       else g_filename_from_utf8 name) = _
  by_cases h : beginsWithFileScheme name = true
  · rw [if_neg (not_not.mpr ((file_scheme_compare_eq_zero_iff name).mpr h)), if_pos h]
  · rw [if_pos (fun h0 => h ((file_scheme_compare_eq_zero_iff name).mp h0)), if_neg h]

/-! ## Properties of the AFC volume monitor -/

/-- No volume is found for a uuid that no volume of the list has. -/
theorem find_volume_by_uuid_none {V U : Type} (has_uuid : V → U → Bool)
    (l : List (Option V)) (uuid : U)
    (h : ∀ w, some w ∈ l → has_uuid w uuid = false) :
    find_volume_by_uuid has_uuid l uuid = none := by
  induction l with
  | nil => rfl
  | cons x l ih =>
    have ih1 := ih (fun w hw => h w (List.mem_cons_of_mem _ hw))
    cases x with
    | none => simpa [find_volume_by_uuid] using ih1
    | some v =>
      have hv := h v (List.mem_cons_self _ _)
      simpa [find_volume_by_uuid, hv] using ih1

/-- Claim C10: when g_vfs_afc_volume_new yields a volume v for the uuid u and v
has that uuid, a device-add event for u followed by a device-remove event for
u leaves the list of volumes exactly as it was before the two events, whatever
the list held, and emits volume-added and then volume-removed, both for v.  A
device-remove event for a uuid that no volume of the list has leaves the
monitor as it was: same list and no signal. -/
theorem afc_add_then_remove_restores {V U : Type} [DecidableEq V]
    (volume_new : U → Option V) (has_uuid : V → U → Bool)
    (self : GVfsAfcVolumeMonitor V) (u : U) (v : V)
    (hnew : volume_new u = some v) (hmatch : has_uuid v u = true) :
    (g_vfs_afc_monitor_usbmuxd_event volume_new has_uuid (some ⟨UE_DEVICE_ADD, u⟩) self =
        ⟨some v :: self.volumes, self.signals ++ [VolumeSignal.volume_added v]⟩) ∧
      (g_vfs_afc_monitor_usbmuxd_event volume_new has_uuid (some ⟨UE_DEVICE_REMOVE, u⟩)
          (g_vfs_afc_monitor_usbmuxd_event volume_new has_uuid (some ⟨UE_DEVICE_ADD, u⟩) self) =
        ⟨self.volumes,
          self.signals ++ [VolumeSignal.volume_added v, VolumeSignal.volume_removed v]⟩) ∧
      ∀ (other : GVfsAfcVolumeMonitor V) (u1 : U),
        (∀ w, some w ∈ other.volumes → has_uuid w u1 = false) →
        g_vfs_afc_monitor_usbmuxd_event volume_new has_uuid (some ⟨UE_DEVICE_REMOVE, u1⟩)
          other = other := by
  have hne : ¬ (UE_DEVICE_REMOVE = UE_DEVICE_ADD) := by decide
  have hadd : g_vfs_afc_monitor_usbmuxd_event volume_new has_uuid (some ⟨UE_DEVICE_ADD, u⟩)
      self = ⟨some v :: self.volumes, self.signals ++ [VolumeSignal.volume_added v]⟩ := by
    simp [g_vfs_afc_monitor_usbmuxd_event, g_vfs_afc_monitor_create_volume, hnew]
  refine ⟨hadd, ?_, ?_⟩
  · rw [hadd]
    simp [g_vfs_afc_monitor_usbmuxd_event, g_vfs_afc_monitor_remove_volume,
      find_volume_by_uuid, hne, hmatch]
  · intro other u1 h
    simp [g_vfs_afc_monitor_usbmuxd_event, g_vfs_afc_monitor_remove_volume, hne,
      find_volume_by_uuid_none has_uuid other.volumes u1 h]

/-- Witness of C10: volumes are numbers, the volume created for uuid u is
u + 100, and the list already holds the volume of uuid 1 and a NULL entry. -/
theorem afc_add_then_remove_restores_witness :
    (g_vfs_afc_monitor_usbmuxd_event (fun u : Nat => some (u + 100))
        (fun (w u : Nat) => w == u + 100) (some ⟨UE_DEVICE_ADD, 2⟩) ⟨[some 101, none], []⟩ =
        ⟨some 102 :: [some 101, none], [] ++ [VolumeSignal.volume_added 102]⟩) ∧
      (g_vfs_afc_monitor_usbmuxd_event (fun u : Nat => some (u + 100))
          (fun (w u : Nat) => w == u + 100) (some ⟨UE_DEVICE_REMOVE, 2⟩)
          (g_vfs_afc_monitor_usbmuxd_event (fun u : Nat => some (u + 100))
            (fun (w u : Nat) => w == u + 100) (some ⟨UE_DEVICE_ADD, 2⟩)
            ⟨[some 101, none], []⟩) =
        ⟨[some 101, none],
          [] ++ [VolumeSignal.volume_added 102, VolumeSignal.volume_removed 102]⟩) ∧
      ∀ (other : GVfsAfcVolumeMonitor Nat) (u1 : Nat),
        (∀ w, some w ∈ other.volumes → (fun (w u : Nat) => w == u + 100) w u1 = false) →
        g_vfs_afc_monitor_usbmuxd_event (fun u : Nat => some (u + 100))
          (fun (w u : Nat) => w == u + 100) (some ⟨UE_DEVICE_REMOVE, u1⟩) other = other :=
  afc_add_then_remove_restores (fun u : Nat => some (u + 100))
    (fun (w u : Nat) => w == u + 100) ⟨[some 101, none], []⟩ 2 102 rfl (by decide)

end Gvfs
